import Mathlib

/-!
Verification of the client-side session orchestration layer of the
document question-answering application.

The definitions below are a shallow embedding of the JavaScript source:

* `src/frontend/src/services/api.js` — the transport adapter
  (uploadDocument, queryDocument, listDocuments, deleteDocument);
* `src/frontend/src/App.jsx` — the document registry
  (loadDocuments, handleUploadSuccess, handleDeleteDocument);
* `src/frontend/src/components/DocumentList.jsx` — selection clicks and
  handleDelete;
* `src/frontend/src/components/ChatInterface.jsx` — the query session
  (reset-on-selection-change effect and handleSubmit);
* `src/unnamed/part_000` (the FileUpload component) — the upload session
  (handleFile, the simulated progress interval, and result handling).

Network calls are modelled by passing the response (or the whole
response sequence) as an explicit argument; the `Bool` paired with some
results records whether the adapter was invoked.  JavaScript `x || y`
on an optional string field is modelled by `jsDetailOr` (absent, null
and the empty string are all falsy); on an optional array field the
only falsy values are absent and null, so it is modelled by
`Option.getD`.
-/

/-- Document wire shape used throughout the frontend:
`\x7bid, filename, page_count, chunk_count, upload_time\x7d`. -/
structure Document where
  id : String
  filename : String
  page_count : Nat
  chunk_count : Nat
  upload_time : String
deriving DecidableEq, Repr

/-- Success payload of the upload operation: `\x7bdocument: ...\x7d`. -/
structure UploadPayload where
  document : Document
deriving DecidableEq, Repr

/-- Success payload of the query operation: `\x7banswer, sources\x7d`;
`sources` is `none` when the field is absent or null in the JSON body. -/
structure QueryPayload where
  answer : String
  sources : Option (List String)
deriving DecidableEq, Repr

/-- Success payload of the list operation: `\x7bdocuments\x7d`;
`documents` is `none` when the field is absent or null. -/
structure ListPayload where
  documents : Option (List Document)
deriving DecidableEq, Repr

/-- A remote HTTP response as seen by the adapter in api.js: the `ok`
flag, the optional `detail` field of the parsed error body, and the
parsed success payload. -/
structure RemoteResponse (α : Type) where
  ok : Bool
  detail : Option String
  payload : α
deriving DecidableEq, Repr

/-- JavaScript `error.detail || dflt`: absent (undefined), null and the
empty string are falsy, any other string is truthy. -/
def jsDetailOr (detail : Option String) (dflt : String) : String :=
  match detail with
  | some s => if s == "" then dflt else s
  | none => dflt

/-- Common shape of the four adapter operations in api.js: on a
non-ok response, throw an Error whose message is the detail field
or the operation default; otherwise return the parsed payload. -/
def fetchJson {α : Type} (dflt : String) (r : RemoteResponse α) : Except String α :=
  if r.ok then Except.ok r.payload else Except.error (jsDetailOr r.detail dflt)

/-- api.js lines 8-23: POST /upload. -/
def uploadDocument (r : RemoteResponse UploadPayload) : Except String UploadPayload :=
  fetchJson "Upload failed" r

/-- api.js lines 31-49: POST /query. -/
def queryDocument (r : RemoteResponse QueryPayload) : Except String QueryPayload :=
  fetchJson "Query failed" r

/-- api.js lines 55-64: GET /documents. -/
def listDocuments (r : RemoteResponse ListPayload) : Except String ListPayload :=
  fetchJson "Failed to fetch documents" r

/-- api.js lines 71-82: DELETE /documents/:id. -/
def deleteDocument (r : RemoteResponse Unit) : Except String Unit :=
  fetchJson "Delete failed" r

/-- An adapter invocation against the sequence of responses the network
would return to successive attempts.  The code contains no retry loop:
only the head of the sequence is ever consumed. -/
def fetchJsonAttempts {α : Type} (dflt : String) (rs : List (RemoteResponse α)) :
    Option (Except String α) :=
  match rs with
  | [] => none
  | r :: _ => some (fetchJson dflt r)

/-- JavaScript String.prototype.trim, modelled over the character list:
whitespace is stripped from both ends. -/
def jsTrim (s : String) : String :=
  ⟨((s.data.dropWhile fun c => c.isWhitespace).reverse.dropWhile fun c => c.isWhitespace).reverse⟩

/-- JavaScript String.prototype.toLowerCase, modelled over the
character list. -/
def jsToLower (s : String) : String :=
  ⟨s.data.map Char.toLower⟩

/-- JavaScript String.prototype.endsWith, modelled over the character
list. -/
def jsEndsWith (s suffix : String) : Bool :=
  List.isSuffixOf suffix.data s.data

/-- State owned by App.jsx: the document list, the selected document
and the upload-panel toggle. -/
structure AppState where
  documents : List Document
  selectedDocument : Option Document
  showUpload : Bool
deriving DecidableEq, Repr

/-- App.jsx lines 17-24 (loadDocuments): on success replace the whole
list with `response.documents || []`; on failure only log, leaving all
state untouched. -/
def loadDocuments (s : AppState) (result : Except String ListPayload) : AppState :=
  match result with
  | Except.ok resp => { s with documents := resp.documents.getD [] }
  | Except.error _ => s

/-- App.jsx lines 26-30 (handleUploadSuccess): prepend the new document,
select it, close the upload panel. -/
def handleUploadSuccess (s : AppState) (doc : Document) : AppState :=
  { documents := doc :: s.documents
    selectedDocument := some doc
    showUpload := false }

/-- App.jsx lines 32-37 (handleDeleteDocument): drop every document with
the given id and clear the selection when it referenced that id. -/
def handleDeleteDocument (s : AppState) (docId : String) : AppState :=
  { s with
    documents := s.documents.filter (fun d => d.id != docId)
    selectedDocument :=
      match s.selectedDocument with
      | some d => if d.id == docId then none else some d
      | none => none }

/-- DocumentList.jsx lines 49-53: a selection event is a click on the
card of a listed document, so selecting an id amounts to selecting the
first listed document carrying it; an id that is not in the list has no
card and the click cannot happen (no state change). -/
def selectById (s : AppState) (docId : String) : AppState :=
  match s.documents.find? (fun d => d.id == docId) with
  | some d => { s with selectedDocument := some d }
  | none => s

/-- DocumentList.jsx lines 7-22 (handleDelete): after the confirm
dialog, call the delete operation; on success propagate to
handleDeleteDocument, on failure only alert (no state change). -/
def handleDelete (s : AppState) (doc : Document) (confirmed : Bool)
    (result : Except String Unit) : AppState :=
  if confirmed then
    match result with
    | Except.ok _ => handleDeleteDocument s doc.id
    | Except.error _ => s
  else s

/-- The registry selection invariant: a non-null selection references a
document present in the sequence (compared by id). -/
def selectionValid (s : AppState) : Bool :=
  match s.selectedDocument with
  | some d => s.documents.any (fun e => e.id == d.id)
  | none => true

/-- One message of ChatInterface.jsx: `id`, `content`, `isUser` and the
optional `sources` array (`none` models a message object built without
a sources field, as the user message literal is). -/
structure Message where
  id : Nat
  content : String
  isUser : Bool
  sources : Option (List String)
deriving DecidableEq, Repr

/-- State owned by ChatInterface.jsx. -/
structure ChatState where
  messages : List Message
  inputValue : String
  isLoading : Bool
deriving DecidableEq, Repr

/-- The seed text of ChatInterface.jsx lines 22-27, built exactly as the
template literal in the source. -/
def readyText (d : Document) : String :=
  "📄 **" ++ d.filename ++ "** is ready!\n\nI\u0027ve processed " ++
    toString d.page_count ++ " pages into " ++ toString d.chunk_count ++
    " searchable chunks. Ask me anything about this document!"

/-- ChatInterface.jsx lines 20-31, the effect run on every change of
selectedDocument: the messages value it installs (`now` is Date.now()). -/
def resetMessages (sel : Option Document) (now : Nat) : List Message :=
  match sel with
  | some d => [⟨now, readyText d, false, some []⟩]
  | none => []

/-- ChatInterface.jsx line 35, the guard of handleSubmit:
`!inputValue.trim() || !selectedDocument || isLoading` means reject. -/
def submitAccepted (s : ChatState) (sel : Option Document) : Bool :=
  !(jsTrim s.inputValue == "" || sel.isNone || s.isLoading)

/-- ChatInterface.jsx lines 37-49: the state at the moment queryDocument
is invoked — input cleared, the user turn appended, isLoading set. -/
def submitPending (s : ChatState) (now : Nat) : ChatState :=
  { messages := s.messages ++ [⟨now, jsTrim s.inputValue, true, none⟩]
    inputValue := ""
    isLoading := true }

/-- ChatInterface.jsx lines 50-70: resolution of the adapter call.  On
success append the answer turn with `response.sources || []`; on a
thrown error append the marker-prefixed error turn with empty sources.
Both paths clear isLoading (the finally block). -/
def submitResolve (p : ChatState) (result : Except String QueryPayload)
    (now2 : Nat) : ChatState :=
  match result with
  | Except.ok resp =>
      { p with
        messages := p.messages ++ [⟨now2 + 1, resp.answer, false, some (resp.sources.getD [])⟩]
        isLoading := false }
  | Except.error msg =>
      { p with
        messages := p.messages ++ [⟨now2 + 1, "❌ Error: " ++ msg, false, some []⟩]
        isLoading := false }

/-- ChatInterface.jsx lines 33-71 (handleSubmit), end to end: the final
state and whether the adapter was called.  `now` is Date.now() at the
user turn, `now2` at the response turn. -/
def handleSubmit (s : ChatState) (sel : Option Document)
    (result : Except String QueryPayload) (now now2 : Nat) : ChatState × Bool :=
  if submitAccepted s sel then
    (submitResolve (submitPending s now) result now2, true)
  else (s, false)

/-- A candidate file as validated by the FileUpload component. -/
structure FileInfo where
  name : String
  size : Nat
deriving DecidableEq, Repr

/-- State owned by the FileUpload component (src/unnamed/part_000). -/
structure UploadState where
  isUploading : Bool
  uploadProgress : Nat
  error : Option String
deriving DecidableEq, Repr

/-- part_000 lines 50-61: validation of handleFile. `none` means the
file passed; `some msg` is the validation error displayed. -/
def validateFile (f : FileInfo) : Option String :=
  if (jsEndsWith (jsToLower f.name) ".pdf") = false then some "Please upload a PDF file"
  else if 50 * 1024 * 1024 < f.size then some "File size must be less than 50MB"
  else none

/-- part_000 lines 50-65: handleFile up to the adapter call.  On a
validation error only the error message is set and the adapter is not
contacted (the `Bool` is false); otherwise the uploading phase starts
with progress 0. -/
def handleFileStart (s : UploadState) (f : FileInfo) : UploadState × Bool :=
  match validateFile f with
  | some msg => ({ s with error := some msg }, false)
  | none => ({ isUploading := true, uploadProgress := 0, error := none }, true)

/-- part_000 lines 68-70: one tick of the simulated progress interval,
`Math.min(prev + 10, 90)`. -/
def progressTick (p : Nat) : Nat := min (p + 10) 90

/-- Progress after `n` interval ticks of an uploading attempt, starting
from the 0 set on entry to the uploading phase. -/
def progressAfter : Nat → Nat
  | 0 => 0
  | n + 1 => progressTick (progressAfter n)

/-- part_000 lines 72-89: resolution of the adapter call.  Success sets
progress to 100 (the reset to idle happens after the display timeout);
failure leaves the uploading phase, resets progress to 0 and stores the
adapter message. -/
def resolveUpload (s : UploadState) (result : Except String UploadPayload) : UploadState :=
  match result with
  | Except.ok _ => { s with uploadProgress := 100 }
  | Except.error msg =>
      { isUploading := false, uploadProgress := 0, error := some msg }

def docA : Document := ⟨"d1", "a.pdf", 1, 1, "2024-01-01T00:00:00Z"⟩

def docB : Document := ⟨"d1", "b.pdf", 2, 2, "2024-01-02T00:00:00Z"⟩

theorem progressAfter_le_ninety (n : Nat) : progressAfter n ≤ 90 := by
  cases n with
  | zero => decide
  | succ n => exact min_le_right _ _

theorem progressAfter_le_succ (n : Nat) : progressAfter n ≤ progressAfter (n + 1) :=
  le_min (Nat.le_add_right _ 10) (progressAfter_le_ninety n)

/-- C1 counterexample: two successive upload successes with the same id
but different filenames leave two entries with that id in the registry,
not one — handleUploadSuccess prepends without replacing. -/
theorem addFront_duplicate_id_counterexample :
    ((handleUploadSuccess (handleUploadSuccess ⟨[], none, false⟩ docA) docB).documents.filter
      (fun d => d.id == "d1")).length = 2 ∧ (2 : Nat) ≠ 1 :=
  ⟨by decide, by decide⟩

/-- C1 (amended): handleUploadSuccess prepends the new document
unconditionally; two successive calls with the same id leave two
entries with that id (2 plus however many were already present), the
head of the sequence and the selection both bearing the second
document (hence the second filename). -/
theorem addFront_prepend_semantics (s : AppState) (d1 d2 : Document) (i : String)
    (h1 : d1.id = i) (h2 : d2.id = i) :
    (handleUploadSuccess s d1).documents = d1 :: s.documents ∧
    (handleUploadSuccess (handleUploadSuccess s d1) d2).documents = d2 :: d1 :: s.documents ∧
    ((handleUploadSuccess (handleUploadSuccess s d1) d2).documents.filter
        (fun d => d.id == i)).length
      = 2 + (s.documents.filter (fun d => d.id == i)).length ∧
    (handleUploadSuccess (handleUploadSuccess s d1) d2).selectedDocument = some d2 ∧
    (handleUploadSuccess (handleUploadSuccess s d1) d2).documents.head? = some d2 := by
  subst h1
  refine ⟨rfl, rfl, ?_, rfl, rfl⟩
  simp [handleUploadSuccess, List.filter_cons, h2]
  omega

theorem addFront_prepend_semantics_witness :
    (handleUploadSuccess (handleUploadSuccess ⟨[], none, false⟩ docA) docB).documents
      = [docB, docA] ∧
    ((handleUploadSuccess (handleUploadSuccess ⟨[], none, false⟩ docA) docB).documents.filter
        (fun d => d.id == "d1")).length = 2 := by
  have h := addFront_prepend_semantics ⟨[], none, false⟩ docA docB "d1" rfl rfl
  exact ⟨h.2.1, by rw [h.2.2.1]; rfl⟩

/-- C7: while the uploading phase lasts, the simulated progress is
monotonically non-decreasing and stays strictly below 100; adapter
success sets it to 100 and adapter failure resets it to 0 (storing the
adapter message). -/
theorem upload_progress_contract :
    (∀ m n : Nat, m ≤ n → progressAfter m ≤ progressAfter n) ∧
    (∀ n : Nat, progressAfter n < 100) ∧
    (∀ (s : UploadState) (p : UploadPayload),
      (resolveUpload s (Except.ok p)).uploadProgress = 100) ∧
    (∀ (s : UploadState) (m : String),
      (resolveUpload s (Except.error m)).uploadProgress = 0 ∧
      (resolveUpload s (Except.error m)).error = some m) := by
  refine ⟨?_, ?_, fun s p => rfl, fun s m => ⟨rfl, rfl⟩⟩
  · exact fun m n h => monotone_nat_of_le_succ progressAfter_le_succ h
  · intro n
    exact lt_of_le_of_lt (progressAfter_le_ninety n) (by norm_num)

theorem upload_progress_contract_witness :
    progressAfter 2 ≤ progressAfter 5 ∧ progressAfter 7 < 100 :=
  ⟨upload_progress_contract.1 2 5 (by decide), upload_progress_contract.2.1 7⟩

/-- C9: a failed list refresh leaves the registry untouched, a failed
delete removes nothing and keeps the selection, and a successful list
refresh replaces the whole sequence with the returned order. -/
theorem registry_failure_leaves_state (s : AppState) (e : String) (doc : Document)
    (l : List Document) :
    loadDocuments s (Except.error e) = s ∧
    (handleDelete s doc true (Except.error e)).documents = s.documents ∧
    (handleDelete s doc true (Except.error e)).selectedDocument = s.selectedDocument ∧
    loadDocuments s (Except.ok ⟨some l⟩) = { s with documents := l } :=
  ⟨rfl, rfl, rfl, rfl⟩

/-- C10: a successful query response with an absent or null sources
field yields an assistant turn carrying the empty source list (not a
missing one), and a successful list response with an absent or null
documents field empties the registry sequence. -/
theorem missing_fields_default_empty (p : ChatState) (ans : String) (u : Nat) (s : AppState) :
    (submitResolve p (Except.ok ⟨ans, none⟩) u).messages
      = p.messages ++ [⟨u + 1, ans, false, some []⟩] ∧
    loadDocuments s (Except.ok ⟨none⟩) = { s with documents := [] } :=
  ⟨rfl, rfl⟩

/-- C2: handleSubmit is a no-op (state unchanged, adapter not called)
when the question trims to empty, no document is selected, or a query
is already in flight; on acceptance exactly one user turn is appended
and isLoading is already true in the state from which the adapter is
invoked. -/
theorem submit_guard_and_optimistic_append (s : ChatState) (sel : Option Document)
    (r : Except String QueryPayload) (t u : Nat) :
    ((jsTrim s.inputValue = "" ∨ sel = none ∨ s.isLoading = true) →
      handleSubmit s sel r t u = (s, false)) ∧
    (submitAccepted s sel = true →
      handleSubmit s sel r t u = (submitResolve (submitPending s t) r u, true) ∧
      (submitPending s t).messages = s.messages ++ [⟨t, jsTrim s.inputValue, true, none⟩] ∧
      (submitPending s t).isLoading = true) := by
  constructor
  · intro h
    have hacc : submitAccepted s sel = false := by
      rcases h with h | h | h <;> simp [submitAccepted, h]
    simp [handleSubmit, hacc]
  · intro h
    exact ⟨by simp [handleSubmit, h], rfl, rfl⟩

theorem submit_guard_and_optimistic_append_witness :
    handleSubmit ⟨[], "   ", false⟩ (some docA) (Except.error "e") 1 2
      = (⟨[], "   ", false⟩, false) ∧
    (handleSubmit ⟨[], " hi ", false⟩ (some docA) (Except.error "e") 1 2).2 = true := by
  refine ⟨(submit_guard_and_optimistic_append _ _ _ _ _).1 (Or.inl (by decide)), ?_⟩
  have h := (submit_guard_and_optimistic_append ⟨[], " hi ", false⟩ (some docA)
      (Except.error "e") 1 2).2 (by decide)
  rw [h.1]

/-- C3: a filename not ending in .pdf (case-insensitively) or a size
above 50 MiB makes handleFile stop with a validation message and
without calling the adapter; otherwise the uploading phase is entered
with progress 0. -/
theorem upload_validation_contract (s : UploadState) (f : FileInfo) :
    ((jsEndsWith (jsToLower f.name) ".pdf" = false ∨ 50 * 1024 * 1024 < f.size) →
      (handleFileStart s f).2 = false ∧
      ((handleFileStart s f).1.error = some "Please upload a PDF file" ∨
        (handleFileStart s f).1.error = some "File size must be less than 50MB") ∧
      (handleFileStart s f).1.isUploading = s.isUploading) ∧
    (jsEndsWith (jsToLower f.name) ".pdf" = true → f.size ≤ 50 * 1024 * 1024 →
      handleFileStart s f = ({ isUploading := true, uploadProgress := 0, error := none }, true)) := by
  constructor
  · intro h
    by_cases hp : jsEndsWith (jsToLower f.name) ".pdf" = false
    · simp [handleFileStart, validateFile, hp]
    · have hsz : 50 * 1024 * 1024 < f.size := by tauto
      simp [handleFileStart, validateFile, hp, hsz]
  · intro hp hs
    simp [handleFileStart, validateFile, hp, Nat.not_lt.mpr hs]

theorem upload_validation_contract_witness :
    (handleFileStart ⟨false, 0, none⟩ ⟨"notes.txt", 10⟩).2 = false ∧
    handleFileStart ⟨false, 0, none⟩ ⟨"Report.PDF", 1024⟩
      = ({ isUploading := true, uploadProgress := 0, error := none }, true) := by
  refine ⟨((upload_validation_contract _ _).1 (Or.inl (by decide))).1, ?_⟩
  exact (upload_validation_contract _ _).2 (by decide) (by decide)

/-- C5: when an accepted submission sees the adapter fail, exactly one
assistant turn is appended, its text begins with the error marker
prefix, its source list is empty, isLoading is cleared (the session is
back to idle and a fresh non-blank submission would be accepted), and
the whole resolution is a total state transition (the exception is
caught, never propagated). -/
theorem query_failure_recovered_as_turn (s : ChatState) (sel : Option Document)
    (emsg : String) (t u : Nat) (h : submitAccepted s sel = true) :
    handleSubmit s sel (Except.error emsg) t u
      = ({ messages := (submitPending s t).messages
              ++ [⟨u + 1, "❌ Error: " ++ emsg, false, some []⟩]
           inputValue := ""
           isLoading := false }, true) ∧
    List.isPrefixOf ("❌ Error: ").data ("❌ Error: " ++ emsg).data = true ∧
    (∀ q : String, (jsTrim q == "") = false →
      submitAccepted
        ⟨(submitResolve (submitPending s t) (Except.error emsg) u).messages, q, false⟩
        sel = true) := by
  refine ⟨by simp [handleSubmit, h, submitResolve, submitPending], ?_, ?_⟩
  · have : ("❌ Error: " ++ emsg).data = ("❌ Error: ").data ++ emsg.data := by
      simp [String.data_append]
    rw [this]
    exact List.isPrefixOf_iff_prefix.mpr (List.prefix_append _ _)
  · intro q hq
    have hsel : sel.isNone = false := by
      by_contra hc
      simp [submitAccepted, eq_true_of_ne_false hc] at h
    simp [submitAccepted, hq, hsel]

theorem query_failure_recovered_as_turn_witness :
    handleSubmit ⟨[], "q", false⟩ (some docA) (Except.error "boom") 1 2
      = ({ messages := [⟨1, "q", true, none⟩, ⟨3, "❌ Error: boom", false, some []⟩]
           inputValue := ""
           isLoading := false }, true) := by
  have h := query_failure_recovered_as_turn ⟨[], "q", false⟩ (some docA) "boom" 1 2 (by decide)
  rw [h.1]
  decide

/-- C6: on a selection change the turn sequence is reset — to a single
synthetic assistant turn with empty sources whose text mentions the
page count and the chunk count of the newly selected document, or to
the empty sequence when the selection becomes null. -/
theorem selection_change_reset_seeds_summary (d : Document) (t : Nat) :
    resetMessages (some d) t = [⟨t, readyText d, false, some []⟩] ∧
    (∃ a b c : String,
      readyText d = a ++ toString d.page_count ++ b ++ toString d.chunk_count ++ c) ∧
    resetMessages none t = [] := by
  refine ⟨rfl, ⟨"📄 **" ++ d.filename ++ "** is ready!\n\nI\u0027ve processed ",
    " pages into ", " searchable chunks. Ask me anything about this document!", rfl⟩, rfl⟩

/-- C8 counterexample: a non-success response whose detail field is the
(provided but empty) string is not surfaced verbatim — the operation
default is substituted, because the source uses JavaScript truthiness,
not presence, to decide. -/
theorem adapter_empty_detail_counterexample :
    uploadDocument ⟨false, some "", ⟨docA⟩⟩ = Except.error "Upload failed" ∧
    ("Upload failed" : String) ≠ "" :=
  ⟨rfl, by decide⟩

/-- C8 (amended): on a non-success response each adapter operation
raises the detail string verbatim when it is present and non-empty,
and the operation-specific default when it is absent, null or empty;
an invocation consults only the first response of any would-be
response sequence (no retries). -/
theorem adapter_error_normalization {α : Type} (dflt m : String) (r : RemoteResponse α)
    (rest1 rest2 : List (RemoteResponse α)) (hm : m ≠ "") :
    (r.ok = false → r.detail = some m → fetchJson dflt r = Except.error m) ∧
    (r.ok = false → (r.detail = none ∨ r.detail = some "") →
      fetchJson dflt r = Except.error dflt) ∧
    fetchJsonAttempts dflt (r :: rest1) = fetchJsonAttempts dflt (r :: rest2) ∧
    (∀ ru : RemoteResponse UploadPayload, uploadDocument ru = fetchJson "Upload failed" ru) ∧
    (∀ rq : RemoteResponse QueryPayload, queryDocument rq = fetchJson "Query failed" rq) ∧
    (∀ rl : RemoteResponse ListPayload,
      listDocuments rl = fetchJson "Failed to fetch documents" rl) ∧
    (∀ rd : RemoteResponse Unit, deleteDocument rd = fetchJson "Delete failed" rd) := by
  refine ⟨?_, ?_, rfl, fun _ => rfl, fun _ => rfl, fun _ => rfl, fun _ => rfl⟩
  · intro hok hd
    simp [fetchJson, hok, jsDetailOr, hd, hm]
  · intro hok hd
    rcases hd with hd | hd <;> simp [fetchJson, hok, jsDetailOr, hd]

theorem adapter_error_normalization_witness :
    fetchJson "Upload failed" (⟨false, some "No such document", ⟨docA⟩⟩ :
        RemoteResponse UploadPayload)
      = Except.error "No such document" ∧
    fetchJson "Query failed" (⟨false, none, ⟨"", none⟩⟩ : RemoteResponse QueryPayload)
      = Except.error "Query failed" := by
  have h1 := @adapter_error_normalization UploadPayload "Upload failed" "No such document"
      ⟨false, some "No such document", ⟨docA⟩⟩ [] [] (by decide)
  have h2 := @adapter_error_normalization QueryPayload "Query failed" "x"
      ⟨false, none, ⟨"", none⟩⟩ [] [] (by decide)
  exact ⟨h1.1 rfl rfl, h2.2.1 rfl (Or.inl rfl)⟩

theorem selectionValid_handleUploadSuccess (s : AppState) (doc : Document) :
    selectionValid (handleUploadSuccess s doc) = true := by
  simp [selectionValid, handleUploadSuccess]

theorem removed_id_not_mem (s : AppState) (docId : String) (d : Document)
    (hd : d ∈ (handleDeleteDocument s docId).documents) : d.id ≠ docId := by
  unfold handleDeleteDocument at hd
  simp only [List.mem_filter] at hd
  simpa [bne_iff_ne] using hd.2

theorem remove_noop_of_absent (s : AppState) (docId : String)
    (h : ∀ d ∈ s.documents, d.id ≠ docId) :
    (handleDeleteDocument s docId).documents = s.documents := by
  unfold handleDeleteDocument
  simp only
  rw [List.filter_eq_self]
  intro a ha
  simpa [bne_iff_ne] using h a ha

theorem remove_clears_selection (s : AppState) (d : Document)
    (hsel : s.selectedDocument = some d) :
    (handleDeleteDocument s d.id).selectedDocument = none := by
  unfold handleDeleteDocument
  simp [hsel]

theorem selectionValid_handleDeleteDocument (s : AppState) (docId : String)
    (h : selectionValid s = true) :
    selectionValid (handleDeleteDocument s docId) = true := by
  unfold selectionValid at h
  unfold selectionValid handleDeleteDocument
  cases hsel : s.selectedDocument with
  | none => simp [hsel]
  | some d =>
    rw [hsel] at h
    by_cases hid : (d.id == docId) = true
    · simp [hsel, hid]
    · simp only [Bool.not_eq_true] at hid
      simp only [hsel, hid, Bool.false_eq_true, if_false]
      rw [List.any_eq_true] at h ⊢
      obtain ⟨e, he, heq⟩ := h
      refine ⟨e, List.mem_filter.mpr ⟨he, ?_⟩, heq⟩
      have hed : e.id = d.id := by simpa using heq
      have : d.id ≠ docId := by simpa using hid
      simp [bne_iff_ne, hed, this]

theorem selectionValid_selectById (s : AppState) (docId : String)
    (h : selectionValid s = true) :
    selectionValid (selectById s docId) = true := by
  unfold selectById
  cases hf : s.documents.find? (fun d => d.id == docId) with
  | none => simpa using h
  | some d =>
    have hmem := List.mem_of_find?_eq_some hf
    simp only [selectionValid]
    rw [List.any_eq_true]
    exact ⟨d, hmem, by simp⟩

theorem selectionValid_handleDelete (s : AppState) (doc : Document) (c : Bool)
    (res : Except String Unit) (h : selectionValid s = true) :
    selectionValid (handleDelete s doc c res) = true := by
  unfold handleDelete
  cases c with
  | false => simpa using h
  | true =>
    cases res with
    | ok u => simpa using selectionValid_handleDeleteDocument s doc.id h
    | error e => simpa using h

theorem select_after_remove_noop (s : AppState) (docId : String) :
    selectById (handleDeleteDocument s docId) docId = handleDeleteDocument s docId := by
  unfold selectById
  have hnone : (handleDeleteDocument s docId).documents.find? (fun d => d.id == docId)
      = none := by
    rw [List.find?_eq_none]
    intro x hx
    have := removed_id_not_mem s docId x hx
    simp [this]
  rw [hnone]

/-- C4: handleDeleteDocument removes every entry with the given id from
the sequence (and is a no-op on the sequence when the id is absent),
clears the selection when it referenced that id, a subsequent selection
click on the removed id is impossible (no state change, so the
selection stays null), and the invariant that a non-null selection
references a listed document is preserved by every state-changing
operation — upload success, delete, selection click — as well as by
the list refresh fired at mount, where no selection exists yet
(App.jsx lines 13-15). -/
theorem registry_referential_integrity (s : AppState) (doc : Document) (docId : String)
    (c : Bool) (res : Except String Unit) (lr : Except String ListPayload) :
    (∀ d ∈ (handleDeleteDocument s docId).documents, d.id ≠ docId) ∧
    ((∀ d ∈ s.documents, d.id ≠ docId) →
      (handleDeleteDocument s docId).documents = s.documents) ∧
    (∀ d, s.selectedDocument = some d → d.id = docId →
      (handleDeleteDocument s docId).selectedDocument = none) ∧
    selectById (handleDeleteDocument s docId) docId = handleDeleteDocument s docId ∧
    (selectionValid s = true →
      selectionValid (handleUploadSuccess s doc) = true ∧
      selectionValid (handleDeleteDocument s docId) = true ∧
      selectionValid (selectById s docId) = true ∧
      selectionValid (handleDelete s doc c res) = true) ∧
    (s.selectedDocument = none → selectionValid (loadDocuments s lr) = true) := by
  refine ⟨fun d hd => removed_id_not_mem s docId d hd,
    remove_noop_of_absent s docId,
    ?_,
    select_after_remove_noop s docId,
    fun h => ⟨selectionValid_handleUploadSuccess s doc,
      selectionValid_handleDeleteDocument s docId h,
      selectionValid_selectById s docId h,
      selectionValid_handleDelete s doc c res h⟩,
    ?_⟩
  · intro d hsel hid
    have hc := remove_clears_selection s d hsel
    rwa [hid] at hc
  · intro hsel
    cases lr with
    | ok resp => simp [loadDocuments, selectionValid, hsel]
    | error e => simp [loadDocuments, selectionValid, hsel]

theorem registry_referential_integrity_witness :
    (selectById (handleDeleteDocument ⟨[docA], some docA, false⟩ "d1") "d1").selectedDocument
      = none ∧
    selectionValid (handleUploadSuccess ⟨[docA], some docA, false⟩ docB) = true := by
  have h := registry_referential_integrity ⟨[docA], some docA, false⟩ docB "d1" true
      (Except.ok ()) (Except.error "e")
  constructor
  · rw [h.2.2.2.1]
    exact h.2.2.1 docA rfl rfl
  · exact (h.2.2.2.2.1 (by decide)).1
